import Mathlib

/-!
Shallow embedding of the split-payment checkout service
(`src/server.cjs`, `src/server.js`, `src/unnamed/part_000`..`part_003`).

The service partitions a cart of line items between an immediate card
payment (Stripe) and cash-on-delivery, creates a Stripe payment intent for
the card portion, and on confirmation creates Shopify orders.  External
HTTP calls (Stripe, Shopify) are modelled as explicit stub arguments, and
each handler returns, alongside its HTTP response fields, the list of
outbound calls it performed, so that claims about "zero outbound calls"
become statements about those lists.

JavaScript numbers are modelled as either a finite rational or a single
non-finite value (standing for `NaN` and `±Infinity`, which behave
identically under the `Number.isFinite` checks this code performs).
Possibly-absent JS object fields are `Option`s (`none` = `undefined`).
-/

deriving instance DecidableEq for Except

namespace SplitPayment

/-- A JavaScript number: a finite value (as a rational) or a non-finite
value (`NaN` / `±Infinity`).  Non-finite values are absorbing for the
arithmetic this code performs and fail `Number.isFinite`. -/
inductive JSNum where
  | nan : JSNum
  | num : ℚ → JSNum
  deriving DecidableEq, Repr

/-- `Number.isFinite`. -/
def JSNum.isFinite : JSNum → Bool
  | .num _ => true
  | .nan => false

/-- JS multiplication: any non-finite operand yields a non-finite result. -/
def JSNum.mul : JSNum → JSNum → JSNum
  | .num a, .num b => .num (a * b)
  | _, _ => .nan

/-- JS addition: any non-finite operand yields a non-finite result. -/
def JSNum.add : JSNum → JSNum → JSNum
  | .num a, .num b => .num (a + b)
  | _, _ => .nan

/-- JS truthiness of a number: `0` and `NaN` are falsy. -/
def JSNum.truthy : JSNum → Bool
  | .num a => a != 0
  | .nan => false

/-- `x > 0` on a JS number (`NaN > 0` is false). -/
def JSNum.gtZero : JSNum → Bool
  | .num a => 0 < a
  | .nan => false

/-- A possibly-absent JS field holding a number
(`none` models `undefined` / `null`). -/
abbrev JSField := Option JSNum

/-- `Number(x)` on a raw field: `undefined` converts to `NaN`, a number
converts to itself. -/
def numOf : JSField → JSNum
  | none => .nan
  | some v => v

/-- JS truthiness of a raw field (`undefined` is falsy). -/
def truthyF : JSField → Bool
  | none => false
  | some v => v.truthy

/-- `x || d`: the field if truthy, else the default. -/
def jsOr (x : JSField) (d : JSNum) : JSNum :=
  if truthyF x then numOf x else d

/-- `x ?? d` (nullish coalescing): the field unless absent. -/
def coalesce (x : JSField) (d : JSNum) : JSNum :=
  match x with
  | none => d
  | some v => v

/-- `Math.round` (half toward positive infinity, like Mathlib `round`);
non-finite input stays non-finite. -/
def jsRound : JSNum → JSNum
  | .num a => .num (round a : ℤ)
  | .nan => .nan

/-- JS division; division by zero gives a non-finite value
(`±Infinity` / `NaN`), which this model collapses with `NaN`. -/
def jsDiv : JSNum → JSNum → JSNum
  | .num a, .num b => if b = 0 then .nan else .num (a / b)
  | _, _ => .nan

/-- The numeric value rendered by `(x).toFixed(2)`
(rounding to two decimals). -/
def toFixed2 : JSNum → JSNum
  | .num a => .num ((round (a * 100) : ℤ) / 100)
  | .nan => .nan

-- String literals used by the handlers, bound once as named constants.
def emptyStr : String := ""
def codStr : String := "cod"
def cardStr : String := "card"
def paidStr : String := "paid"
def pendingStr : String := "pending"
def succeededStr : String := "succeeded"
def undefinedStr : String := "undefined"
def invalidItemStr : String := "invalid_item"
def noItemsStr : String := "no_items"
def noItemsProvidedStr : String := "No items provided"
def notAuthorizedStr : String := "not_authorized"
def loginRequiredStr : String := "login_required"
def missingPaymentIdStr : String := "missing_payment_id"
def serverErrorStr : String := "server_error"
def piNotSucceededStr : String := "pi_not_succeeded"
def paymentNotSucceededStr : String := "payment_not_succeeded"
def piNotSucceededP1Str : String := "PaymentIntent not succeeded"
def missingStripeKeyStr : String := "Missing STRIPE_SECRET_KEY"
def missingShopifyStr : String := "Missing Shopify credentials"
def splitTagStr : String := "split"
def commaStr : String := ","
def articleStr : String := "Article"
def stripeCardTitleStr : String := "Paiement carte (Stripe)"
def succeededEventStr : String := "payment_intent.succeeded"
def failedEventStr : String := "payment_intent.payment_failed"

/-- A raw cart item as posted to the endpoints.  Numeric fields are raw JS
fields; `pay_method` and `title` are raw string fields. -/
structure Item where
  variant_id : JSField
  qty : JSField
  price_cents : JSField
  unit_price_cents : JSField
  line_total_cents : JSField
  pay_method : Option String
  title : Option String
  deriving DecidableEq, Repr

/-- `String(it.pay_method)`: stringification of the raw field
(`undefined` stringifies to a value that is never `"cod"`). -/
def payStr (pm : Option String) : String :=
  pm.getD undefinedStr

/-- A Stripe payment intent as read back from the processor. -/
structure PaymentIntent where
  id : String
  status : String
  amount : ℚ
  amount_received : ℚ
  currency : String
  metadata_orderId : Option String
  deriving DecidableEq, Repr

/-- A Shopify order line item (projected to the fields the claims
mention). -/
inductive LineItem where
  | variantLine (variant_id : JSNum) (quantity : JSNum)
  | pricedLine (title : String) (quantity : JSNum) (price : JSNum)
  deriving DecidableEq, Repr

/-- A Shopify order-creation payload, projected to its financial status
and line items. -/
structure OrderPayload where
  financial_status : String
  line_items : List LineItem
  deriving DecidableEq, Repr

/-! ## server.cjs : the customer gate -/

/-- The two feature flags read from the environment in `server.cjs`. -/
structure Config where
  REQUIRE_LOGIN : Bool
  REQUIRE_SPLIT_TAG : Bool
  deriving DecidableEq, Repr

/-- A Shopify customer record as returned by the customer search. -/
structure ShopCustomer where
  email : String
  tags : String
  deriving DecidableEq, Repr

/-- `(exact.tags || "").split(",").map(t => t.trim().toLowerCase())`. -/
def tagList (tags : String) : List String :=
  (tags.splitOn commaStr).map (fun t => t.trim.toLower)

/-- Lines 89-94 of `server.cjs`: resolve the matching customer (exact
email match, else the first hit) and test whether its tags include
`split`.  An empty result list means not allowed. -/
def markerFound (email : String) (customers : List ShopCustomer) : Bool :=
  match customers with
  | [] => false
  | c :: _ =>
    let exact := (customers.find? (fun x => x.email.toLower = email.toLower)).getD c
    (tagList exact.tags).contains splitTagStr

/-- `isCustomerAllowed` from `server.cjs` (lines 76-99).  The Shopify
customer search is a stub argument: `.error ()` models the request
throwing (the `catch` returns `false`). -/
def isCustomerAllowed (cfg : Config) (email : String)
    (lookup : Except Unit (List ShopCustomer)) : Bool :=
  if email = "" then !cfg.REQUIRE_LOGIN && !cfg.REQUIRE_SPLIT_TAG
  else if !cfg.REQUIRE_SPLIT_TAG then true
  else
    match lookup with
    | .error _ => false
    | .ok customers => markerFound email customers

/-- `requireAuthOr403` from `server.cjs` (lines 101-107): trims the
customer email and rejects with `login_required` when a login is required
but no email was given. -/
def requireAuthOr403 (cfg : Config) (customerEmail : Option String) :
    Except String String :=
  let email := (customerEmail.getD emptyStr).trim
  if cfg.REQUIRE_LOGIN && email = "" then .error loginRequiredStr
  else .ok email

/-! ## server.cjs : POST /checkout/create -/

/-- Per-item subtotal resolution in the `/checkout/create` loop of
`server.cjs` (lines 132-148): start from `Number(it.line_total_cents)`;
while the running subtotal is not finite, fall back to
`unit_price_cents * qty` and then to the legacy `price_cents * qty`,
where `qty = Number(it.qty || 1)`. -/
def resolveSubtotal (it : Item) : JSNum :=
  let qty := jsOr it.qty (.num 1)
  let s1 := numOf it.line_total_cents
  let s2 :=
    if s1.isFinite then s1
    else if (numOf it.unit_price_cents).isFinite then
      (numOf it.unit_price_cents).mul qty
    else s1
  if s2.isFinite then s2
  else if (numOf it.price_cents).isFinite then
    (numOf it.price_cents).mul qty
  else s2

/-- `String(it.pay_method) === "cod"` (line 154 of `server.cjs`). -/
def isCodCJS (it : Item) : Bool :=
  payStr it.pay_method == codStr

/-- The accumulation loop of `/checkout/create` in `server.cjs`
(lines 132-156): each item either rejects the whole request with
`invalid_item` (non-finite or negative subtotal) or adds its subtotal to
exactly one of the two running totals. -/
def splitCents : List Item → ℚ → ℚ → Except String (ℚ × ℚ)
  | [], card, cod => .ok (card, cod)
  | it :: rest, card, cod =>
    match resolveSubtotal it with
    | .nan => .error invalidItemStr
    | .num s =>
      if s < 0 then .error invalidItemStr
      else if isCodCJS it then splitCents rest card (cod + s)
      else splitCents rest (card + s) cod

/-- Response of a `/checkout/create` handler, together with the amounts of
the Stripe payment-intent-creation calls it performed. -/
structure CreateResult where
  status : Nat
  ok : Bool
  error : Option String
  payment_intent_id : Option String
  client_secret : Option String
  amounts : Option (JSNum × JSNum)
  stripeCalls : List JSNum
  deriving DecidableEq, Repr

/-- `POST /checkout/create` of `server.cjs` (lines 114-188).  `piStub` is
the id and client secret the Stripe stub would answer with. -/
def createCJS (cfg : Config) (customerEmail : Option String)
    (lookup : Except Unit (List ShopCustomer))
    (piStub : String × String) (items : List Item) : CreateResult :=
  match requireAuthOr403 cfg customerEmail with
  | .error e =>
    { status := 403, ok := false, error := some e, payment_intent_id := none,
      client_secret := none, amounts := none, stripeCalls := [] }
  | .ok email =>
    if !(isCustomerAllowed cfg email lookup) then
      { status := 403, ok := false, error := some notAuthorizedStr,
        payment_intent_id := none, client_secret := none, amounts := none,
        stripeCalls := [] }
    else if items.isEmpty then
      { status := 400, ok := false, error := some noItemsStr,
        payment_intent_id := none, client_secret := none, amounts := none,
        stripeCalls := [] }
    else
      match splitCents items 0 0 with
      | .error e =>
        { status := 400, ok := false, error := some e,
          payment_intent_id := none, client_secret := none, amounts := none,
          stripeCalls := [] }
      | .ok (card, cod) =>
        if 0 < card then
          { status := 200, ok := true, error := none,
            payment_intent_id := some piStub.1,
            client_secret := some piStub.2,
            amounts := some (.num card, .num cod),
            stripeCalls := [.num card] }
        else
          { status := 200, ok := true, error := none,
            payment_intent_id := none, client_secret := none,
            amounts := some (.num card, .num cod), stripeCalls := [] }

/-! ## server.cjs : POST /checkout/confirm and POST /checkout/cod -/

/-- Response of an order-creating handler, together with the Stripe
payment-intent retrievals and Shopify order-creation calls it
performed. -/
structure OrderResult where
  status : Nat
  ok : Bool
  error : Option String
  retrieveCalls : List String
  orderCalls : List OrderPayload
  deriving DecidableEq, Repr

/-- One Shopify line item built by `/checkout/confirm` in `server.cjs`
(lines 216-229): a variant reference when `variant_id` is truthy, else a
title/price line from `price_cents`; `qty` uses nullish coalescing. -/
def confirmLineCJS (it : Item) : LineItem :=
  let qty := coalesce it.qty (.num 1)
  if truthyF it.variant_id then .variantLine (numOf it.variant_id) qty
  else
    .pricedLine (it.title.getD articleStr) qty
      (toFixed2 (jsDiv (coalesce it.price_cents (.num 0)) (.num 100)))

/-- `pi.amount_received || pi.amount || 0` (line 212 of `server.cjs`). -/
def piAmountCents (pi : PaymentIntent) : ℚ :=
  if pi.amount_received ≠ 0 then pi.amount_received
  else if pi.amount ≠ 0 then pi.amount
  else 0

/-- `POST /checkout/confirm` of `server.cjs` (lines 191-281): require a
payment id, run the customer gate, retrieve the payment intent, reject
with 400 unless its status is `succeeded`, then create a single Shopify
order with financial status `paid` covering all posted items (or a
fallback line when no items were posted).  A throwing retrieval is caught
by the handler and surfaces as a 500. -/
def confirmCJS (cfg : Config) (piId : Option String)
    (customerEmail : Option String)
    (lookup : Except Unit (List ShopCustomer))
    (retrieve : String → Except String PaymentIntent)
    (items : List Item) : OrderResult :=
  match piId with
  | none =>
    { status := 400, ok := false, error := some missingPaymentIdStr,
      retrieveCalls := [], orderCalls := [] }
  | some pid =>
    match requireAuthOr403 cfg customerEmail with
    | .error e =>
      { status := 403, ok := false, error := some e,
        retrieveCalls := [], orderCalls := [] }
    | .ok email =>
      if !(isCustomerAllowed cfg email lookup) then
        { status := 403, ok := false, error := some notAuthorizedStr,
          retrieveCalls := [], orderCalls := [] }
      else
        match retrieve pid with
        | .error _ =>
          { status := 500, ok := false, error := some serverErrorStr,
            retrieveCalls := [pid], orderCalls := [] }
        | .ok pi =>
          if pi.status ≠ succeededStr then
            { status := 400, ok := false,
              error := some (piNotSucceededStr ++ pi.status),
              retrieveCalls := [pid], orderCalls := [] }
          else
            let line_items :=
              if items.isEmpty then
                [LineItem.pricedLine stripeCardTitleStr (.num 1)
                  (toFixed2 (.num (piAmountCents pi / 100)))]
              else items.map confirmLineCJS
            { status := 200, ok := true, error := none,
              retrieveCalls := [pid],
              orderCalls := [{ financial_status := paidStr,
                               line_items := line_items }] }

/-- One Shopify line item built by `/checkout/cod` in `server.cjs`
(lines 296-317): a variant reference when `variant_id` is truthy, else a
title/price line whose unit price falls back to
`Math.round(line_total_cents / qty)`. -/
def codLineCJS (it : Item) : LineItem :=
  let qty := jsOr it.qty (.num 1)
  if truthyF it.variant_id then .variantLine (numOf it.variant_id) qty
  else
    let unit0 := numOf it.unit_price_cents
    let unit :=
      if !unit0.isFinite && (numOf it.line_total_cents).isFinite
          && qty.gtZero then
        jsRound (jsDiv (numOf it.line_total_cents) qty)
      else unit0
    .pricedLine (it.title.getD articleStr) qty
      (if unit.isFinite then toFixed2 (jsDiv unit (.num 100)) else .num 0)

/-- `POST /checkout/cod` of `server.cjs` (lines 284-356): customer gate,
then one Shopify order with financial status `pending`.  With an empty
item list the fallback branch reads a variable (`amount_cents`) that is
not defined in this handler; the resulting ReferenceError is caught by
the surrounding try/catch and surfaces as a 500 with no order call.
(The source line `const let line_items = []` is a syntax slip read here
as `let line_items = []`.) -/
def codCJS (cfg : Config) (customerEmail : Option String)
    (lookup : Except Unit (List ShopCustomer))
    (items : List Item) : OrderResult :=
  match requireAuthOr403 cfg customerEmail with
  | .error e =>
    { status := 403, ok := false, error := some e,
      retrieveCalls := [], orderCalls := [] }
  | .ok email =>
    if !(isCustomerAllowed cfg email lookup) then
      { status := 403, ok := false, error := some notAuthorizedStr,
        retrieveCalls := [], orderCalls := [] }
    else if items.isEmpty then
      { status := 500, ok := false, error := some serverErrorStr,
        retrieveCalls := [], orderCalls := [] }
    else
      { status := 200, ok := true, error := none, retrieveCalls := [],
        orderCalls := [{ financial_status := pendingStr,
                         line_items := items.map codLineCJS }] }

/-! ## src/server.js (and its copy `part_000`) -/

/-- The summand of `calcTotals` in `src/server.js` (line 42):
`it.price_cents * it.qty` on the raw fields, so an absent field poisons
the product with `NaN`. -/
def termJS (it : Item) : JSNum :=
  (numOf it.price_cents).mul (numOf it.qty)

/-- `calcTotals` from `src/server.js` (lines 41-44):
`items.reduce((sum, it) => sum + it.price_cents * it.qty, 0)`. -/
def calcTotals (items : List Item) : JSNum :=
  items.foldl (fun acc it => acc.add (termJS it)) (.num 0)

/-- `i.pay_method === "card"` on the raw field. -/
def isCardStrict (i : Item) : Bool :=
  i.pay_method == some cardStr

/-- `i.pay_method === "cod"` on the raw field. -/
def isCodStrict (i : Item) : Bool :=
  i.pay_method == some codStr

/-- `POST /checkout/create` of `src/server.js` (lines 47-88): reject an
empty cart, filter the card and cod items, and create a Stripe payment
intent only when there is at least one card item with a positive total. -/
def createJS (piStub : String × String) (items : List Item) : CreateResult :=
  if items.isEmpty then
    { status := 400, ok := false, error := some noItemsProvidedStr,
      payment_intent_id := none, client_secret := none, amounts := none,
      stripeCalls := [] }
  else
    let cardTotal := calcTotals (items.filter isCardStrict)
    let codTotal := calcTotals (items.filter isCodStrict)
    if 0 < (items.filter isCardStrict).length && cardTotal.gtZero then
      { status := 200, ok := true, error := none,
        payment_intent_id := some piStub.1, client_secret := some piStub.2,
        amounts := some (cardTotal, codTotal), stripeCalls := [cardTotal] }
    else
      { status := 200, ok := true, error := none,
        payment_intent_id := none, client_secret := none,
        amounts := some (cardTotal, codTotal), stripeCalls := [] }

/-- `toLineItems` of the `src/server.js` confirm handler (lines 105-108):
raw `variant_id` and `qty` are passed through. -/
def toLineItemsJS (arr : List Item) : List LineItem :=
  arr.map (fun i => .variantLine (numOf i.variant_id) (numOf i.qty))

/-- The order-creating tail of `/checkout/confirm` in `src/server.js`
(lines 102-148): one `paid` order for a non-empty card branch, then one
`pending` order for a non-empty cod branch; an empty branch is skipped. -/
def confirmOrdersJS (items : List Item) (retrieves : List String) :
    OrderResult :=
  let cardItems := items.filter isCardStrict
  let codItems := items.filter isCodStrict
  let paidOrders :=
    if cardItems.isEmpty then []
    else [{ financial_status := paidStr,
            line_items := toLineItemsJS cardItems : OrderPayload }]
  let codOrders :=
    if codItems.isEmpty then []
    else [{ financial_status := pendingStr,
            line_items := toLineItemsJS codItems : OrderPayload }]
  { status := 200, ok := true, error := none, retrieveCalls := retrieves,
    orderCalls := paidOrders ++ codOrders }

/-- `POST /checkout/confirm` of `src/server.js` (lines 91-153): when a
payment id is present, retrieve the payment intent and reject with 400
unless its status is `succeeded`; then create per-branch orders.  A
throwing retrieval is caught by the handler and surfaces as a 500. -/
def confirmJS (piId : Option String)
    (retrieve : String → Except String PaymentIntent)
    (items : List Item) : OrderResult :=
  match piId with
  | none => confirmOrdersJS items []
  | some pid =>
    match retrieve pid with
    | .error _ =>
      { status := 500, ok := false, error := some serverErrorStr,
        retrieveCalls := [pid], orderCalls := [] }
    | .ok pi =>
      if pi.status ≠ succeededStr then
        { status := 400, ok := false,
          error := some paymentNotSucceededStr,
          retrieveCalls := [pid], orderCalls := [] }
      else confirmOrdersJS items [pid]

/-! ## part_000 : its distinct confirm handler -/

/-- `i?.pay_method === "card" && i?.qty > 0` (line 101 of `part_000`). -/
def isCardP0 (i : Item) : Bool :=
  (i.pay_method == some cardStr) && (numOf i.qty).gtZero

/-- `i?.pay_method === "cod" && i?.qty > 0` (line 102 of `part_000`). -/
def isCodP0 (i : Item) : Bool :=
  (i.pay_method == some codStr) && (numOf i.qty).gtZero

/-- `toLine` of the `part_000` confirm handler (lines 104-108):
`Number` conversions of the variant id and the quantity. -/
def toLineItemsP0 (arr : List Item) : List LineItem :=
  arr.map (fun i => .variantLine (numOf i.variant_id) (numOf i.qty))

/-- `POST /checkout/confirm` of `part_000` (lines 91-163): this variant
never retrieves or checks the payment intent (the destructured id is
unused); it filters each branch by strict `pay_method` equality plus a
`qty > 0` guard, then creates one `paid` order for a non-empty card
branch and one `pending` order for a non-empty cod branch, skipping
empty branches. -/
def confirmP0 (items : List Item) : OrderResult :=
  let cardItems := items.filter isCardP0
  let codItems := items.filter isCodP0
  let paidOrders :=
    if cardItems.isEmpty then []
    else [{ financial_status := paidStr,
            line_items := toLineItemsP0 cardItems : OrderPayload }]
  let codOrders :=
    if codItems.isEmpty then []
    else [{ financial_status := pendingStr,
            line_items := toLineItemsP0 codItems : OrderPayload }]
  { status := 200, ok := true, error := none, retrieveCalls := [],
    orderCalls := paidOrders ++ codOrders }

/-! ## part_001 (and the truncated copy part_003): the splitItems variant -/

/-- `toInt` from `part_001` (lines 31-34) and `part_003` (lines 27-30):
finite numbers are `Math.round`ed to an integer, every non-finite value
(including an absent field) coerces to `0`. -/
def toInt (n : JSNum) : Int :=
  match n with
  | .num a => round a
  | .nan => 0

/-- A cart line after `splitItems` normalisation. -/
structure NormItem where
  variant_id : JSNum
  qty : JSNum
  price_cents : Int
  pay_method : String
  deriving DecidableEq, Repr

/-- The filter of `splitItems` (line 38 of `part_001`):
`it && it.variant_id && it.qty` keeps only items whose variant id and
quantity are truthy. -/
def keepItem (it : Item) : Bool :=
  truthyF it.variant_id && truthyF it.qty

/-- The map of `splitItems` (lines 39-45 of `part_001`): convert the
numeric fields, coerce the price through `toInt`, and collapse every
`pay_method` other than the exact string `"cod"` to `"card"`. -/
def normalizeItem (it : Item) : NormItem :=
  { variant_id := numOf it.variant_id
    qty := numOf it.qty
    price_cents := toInt (numOf it.price_cents)
    pay_method := if it.pay_method = some codStr then codStr else cardStr }

/-- The partition produced by `splitItems`. -/
structure SplitResult where
  card : List NormItem
  cod : List NormItem
  all : List NormItem
  deriving DecidableEq, Repr

/-- `splitItems` from `part_001` (lines 36-54) / `part_003` (lines
32-43): filter the valid lines, normalise them, and push each one onto
the `cod` list when its normalised `pay_method` is `"cod"`, else onto the
`card` list (order preserved, hence the two filters). -/
def splitItems (items : List Item) : SplitResult :=
  let norm := (items.filter keepItem).map normalizeItem
  { card := norm.filter (fun it => !(it.pay_method == codStr))
    cod := norm.filter (fun it => it.pay_method == codStr)
    all := norm }

/-- `sumCents` from `part_001` (lines 56-58):
`lines.reduce((acc, l) => acc + toInt(l.price_cents) * toInt(l.qty), 0)`
(on normalised lines, whose `price_cents` is already an integer, so its
`toInt` is the identity). -/
def sumCents (lines : List NormItem) : Int :=
  lines.foldl
    (fun acc l => acc + toInt (.num (l.price_cents : ℚ)) * toInt l.qty) 0

/-- `POST /checkout/create` of `part_001` (lines 91-136): split the
items, and when the card portion is not positive answer immediately with
null payment-intent fields and both totals, making no Stripe call. -/
def createP1 (hasStripeKey : Bool) (piStub : String × String)
    (items : List Item) : CreateResult :=
  let s := splitItems items
  let card_cents := sumCents s.card
  let cod_cents := sumCents s.cod
  if card_cents ≤ 0 then
    { status := 200, ok := true, error := none, payment_intent_id := none,
      client_secret := none,
      amounts := some (.num (card_cents : ℚ), .num (cod_cents : ℚ)),
      stripeCalls := [] }
  else if !hasStripeKey then
    { status := 400, ok := false, error := some missingStripeKeyStr,
      payment_intent_id := none, client_secret := none, amounts := none,
      stripeCalls := [] }
  else
    { status := 200, ok := true, error := none,
      payment_intent_id := some piStub.1, client_secret := some piStub.2,
      amounts := some (.num (card_cents : ℚ), .num (cod_cents : ℚ)),
      stripeCalls := [.num (card_cents : ℚ)] }

/-- `toShopifyLine` from `part_001` (lines 60-65), applied to already
normalised lines. -/
def toShopifyLine (it : NormItem) : LineItem :=
  .variantLine it.variant_id it.qty

/-- The order-creating tail of `/checkout/confirm` in `part_001`
(lines 169-211): one `paid` order for a non-empty card branch, one
`pending` order for a non-empty cod branch. -/
def confirmOrdersP1 (items : List Item) (retrieves : List String) :
    OrderResult :=
  let s := splitItems items
  let paidOrders :=
    if s.card.isEmpty then []
    else [{ financial_status := paidStr,
            line_items := s.card.map toShopifyLine : OrderPayload }]
  let codOrders :=
    if s.cod.isEmpty then []
    else [{ financial_status := pendingStr,
            line_items := s.cod.map toShopifyLine : OrderPayload }]
  { status := 200, ok := true, error := none, retrieveCalls := retrieves,
    orderCalls := paidOrders ++ codOrders }

/-- `POST /checkout/confirm` of `part_001` (lines 143-220): reject
without Shopify credentials; when a payment id is present, retrieve it
and reject with 400 when its status is retrieved and not `succeeded` (a
throwing retrieval is only logged and the handler proceeds, for the
full-COD case); then create per-branch orders. -/
def confirmP1 (hasShopifyCreds : Bool) (piId : Option String)
    (retrieve : String → Except String PaymentIntent)
    (items : List Item) : OrderResult :=
  if !hasShopifyCreds then
    { status := 400, ok := false, error := some missingShopifyStr,
      retrieveCalls := [], orderCalls := [] }
  else
    match piId with
    | none => confirmOrdersP1 items []
    | some pid =>
      match retrieve pid with
      | .error _ => confirmOrdersP1 items [pid]
      | .ok pi =>
        if pi.status ≠ succeededStr then
          { status := 400, ok := false,
            error := some piNotSucceededP1Str,
            retrieveCalls := [pid], orderCalls := [] }
        else confirmOrdersP1 items [pid]

/-! ## server.cjs : POST /stripe/webhook -/

/-- A verified Stripe webhook event. -/
structure StripeEvent where
  type : String
  id : String
  pi : PaymentIntent
  deriving DecidableEq, Repr

/-- `handlePaymentSuccess` from `server.cjs` (lines 359-396): issues one
Shopify order-update call only when credentials are configured and the
payment intent stored an order id in its metadata; returns the ids of the
update calls made. -/
def handlePaymentSuccess (hasShopifyCreds : Bool) (pi : PaymentIntent) :
    List String :=
  match pi.metadata_orderId with
  | some oid => if hasShopifyCreds then [oid] else []
  | none => []

/-- Response of the webhook route together with the Shopify order-update
calls triggered by it. -/
structure WebhookResult where
  status : Nat
  orderUpdateCalls : List String
  deriving DecidableEq, Repr

/-- `POST /stripe/webhook` of `server.cjs` (lines 48-70) and `part_002`
(lines 303-332): `stripe.webhooks.constructEvent` either throws
(signature verification failure, modelled as `.error`), upon which the
handler answers 400 having performed nothing, or yields the verified
event, which is dispatched to the success/failure handlers
(`handlePaymentFailure` performs no order call). -/
def stripeWebhook (hasShopifyCreds : Bool)
    (verifiedEvent : Except String StripeEvent) : WebhookResult :=
  match verifiedEvent with
  | .error _ => { status := 400, orderUpdateCalls := [] }
  | .ok ev =>
    if ev.type = succeededEventStr then
      { status := 200,
        orderUpdateCalls := handlePaymentSuccess hasShopifyCreds ev.pi }
    else
      { status := 200, orderUpdateCalls := [] }

/-! ## The spec-side price-resolution function (for claim C3) -/

/-- The ordered-fallback price resolution as the spec words it
(spec sections 4.1 and 9): the explicit line total if it parses to a
finite number, otherwise unit price times quantity, otherwise the legacy
per-unit price field times quantity.  Stated from the spec, to be
compared with `resolveSubtotal` from `server.cjs`. -/
def specOrderedFallback (it : Item) : JSNum :=
  let qty := jsOr it.qty (.num 1)
  if (numOf it.line_total_cents).isFinite then numOf it.line_total_cents
  else if (numOf it.unit_price_cents).isFinite then
    (numOf it.unit_price_cents).mul qty
  else (numOf it.price_cents).mul qty

/-- The rational value of an accepted item subtotal (an item the splitter
accepts always resolves to a finite subtotal). -/
def subQ (it : Item) : ℚ :=
  match resolveSubtotal it with
  | .num s => s
  | .nan => 0

/-! ## Helper lemmas -/

theorem JSNum.add_num_zero (a : JSNum) : a.add (.num 0) = a := by
  cases a <;> simp [JSNum.add]

theorem JSNum.num_zero_add (a : JSNum) : (JSNum.num 0).add a = a := by
  cases a <;> simp [JSNum.add]

theorem JSNum.add_assoc (a b c : JSNum) :
    (a.add b).add c = a.add (b.add c) := by
  cases a <;> cases b <;> cases c
  all_goals simp [JSNum.add]
  all_goals ring

theorem JSNum.add_left_comm (a b c : JSNum) :
    a.add (b.add c) = b.add (a.add c) := by
  cases a <;> cases b <;> cases c
  all_goals simp [JSNum.add]
  all_goals ring

theorem calcTotals_shift (xs : List Item) (a : JSNum) :
    List.foldl (fun acc it => acc.add (termJS it)) a xs
      = a.add (calcTotals xs) := by
  induction xs generalizing a with
  | nil => simp [calcTotals, JSNum.add_num_zero]
  | cons x xs ih =>
    rw [List.foldl_cons, ih (a.add (termJS x)), JSNum.add_assoc]
    congr 1
    show (termJS x).add (calcTotals xs)
        = List.foldl (fun acc it => acc.add (termJS it)) (JSNum.num 0)
            (x :: xs)
    rw [List.foldl_cons, JSNum.num_zero_add, ih (termJS x)]

theorem calcTotals_cons (it : Item) (xs : List Item) :
    calcTotals (it :: xs) = (termJS it).add (calcTotals xs) := by
  show List.foldl (fun acc it => acc.add (termJS it)) (JSNum.num 0)
      (it :: xs) = (termJS it).add (calcTotals xs)
  rw [List.foldl_cons, JSNum.num_zero_add, calcTotals_shift]

/-- Conservation of `calcTotals` across the two strict `pay_method`
filters of `src/server.js`, provided every item has one of the two
recognised payment methods. -/
theorem calcTotals_filter_partition (items : List Item)
    (h : ∀ it ∈ items,
      it.pay_method = some cardStr ∨ it.pay_method = some codStr) :
    (calcTotals (items.filter isCardStrict)).add
        (calcTotals (items.filter isCodStrict))
      = calcTotals items := by
  induction items with
  | nil => simp [calcTotals, JSNum.add]
  | cons it rest ih =>
    have hrest : ∀ x ∈ rest,
        x.pay_method = some cardStr ∨ x.pay_method = some codStr :=
      fun x hx => h x (List.mem_cons_of_mem it hx)
    rcases h it (List.mem_cons_self it rest) with hc | hc
    · have h1 : isCardStrict it = true := by
        simp only [isCardStrict, hc]; decide
      have h2 : ¬ (isCodStrict it = true) := by
        simp only [isCodStrict, hc]; decide
      rw [List.filter_cons, List.filter_cons, if_pos h1, if_neg h2]
      rw [calcTotals_cons, calcTotals_cons, JSNum.add_assoc, ih hrest]
    · have h1 : ¬ (isCardStrict it = true) := by
        simp only [isCardStrict, hc]; decide
      have h2 : isCodStrict it = true := by
        simp only [isCodStrict, hc]; decide
      rw [List.filter_cons, List.filter_cons, if_neg h1, if_pos h2]
      rw [calcTotals_cons, calcTotals_cons, JSNum.add_left_comm, ih hrest]

/-- Splitting a mapped sum over a Boolean filter and its complement. -/
theorem sum_map_filter_partition {α : Type} (l : List α) (f : α → ℚ)
    (p : α → Bool) :
    (((l.filter p).map f).sum) + (((l.filter (fun x => !p x)).map f).sum)
      = ((l.map f).sum) := by
  induction l with
  | nil => simp
  | cons x xs ih =>
    rw [List.filter_cons, List.filter_cons]
    by_cases hpx : p x = true
    · rw [if_pos hpx, if_neg (by simp [hpx])]
      simp only [List.map_cons, List.sum_cons]
      linarith [ih]
    · have hpF : p x = false := by
        cases hb : p x
        · rfl
        · exact absurd hb hpx
      rw [if_neg hpx, if_pos (by simp [hpF])]
      simp only [List.map_cons, List.sum_cons]
      linarith [ih]

/-- Splitting a length over a Boolean filter and its complement. -/
theorem length_filter_partition {α : Type} (l : List α) (p : α → Bool) :
    (l.filter p).length + (l.filter (fun x => !p x)).length = l.length := by
  induction l with
  | nil => simp
  | cons x xs ih =>
    rw [List.filter_cons, List.filter_cons]
    by_cases hpx : p x = true
    · rw [if_pos hpx, if_neg (by simp [hpx])]
      simp only [List.length_cons]
      omega
    · have hpF : p x = false := by
        cases hb : p x
        · rfl
        · exact absurd hb hpx
      rw [if_neg hpx, if_pos (by simp [hpF])]
      simp only [List.length_cons]
      omega

/-- The accumulator invariant of the `server.cjs` split loop: on success
the final card total is the initial one plus the resolved subtotals of
the non-cod items, and symmetrically for cod. -/
theorem splitCents_ok (items : List Item) :
    ∀ card0 cod0 card cod, splitCents items card0 cod0 = .ok (card, cod) →
      card = card0 + (((items.filter (fun it => !(isCodCJS it))).map subQ).sum)
      ∧ cod = cod0 + (((items.filter isCodCJS).map subQ).sum) := by
  induction items with
  | nil =>
    intro c0 d0 c d h
    simp only [splitCents, Except.ok.injEq, Prod.mk.injEq] at h
    simp [h.1, h.2]
  | cons it rest ih =>
    intro c0 d0 c d h
    simp only [splitCents] at h
    cases hres : resolveSubtotal it with
    | nan =>
      rw [hres] at h
      exact Except.noConfusion h
    | num s =>
      rw [hres] at h
      dsimp only at h
      have hsub : subQ it = s := by simp [subQ, hres]
      by_cases hs : s < 0
      · rw [if_pos hs] at h
        exact Except.noConfusion h
      · rw [if_neg hs] at h
        by_cases hcod : isCodCJS it = true
        · rw [if_pos hcod] at h
          obtain ⟨h1, h2⟩ := ih c0 (d0 + s) c d h
          refine ⟨?_, ?_⟩
          · rw [h1, List.filter_cons, if_neg (by simp [hcod])]
          · rw [h2, List.filter_cons, if_pos hcod]
            simp only [List.map_cons, List.sum_cons, hsub]
            ring
        · rw [if_neg hcod] at h
          obtain ⟨h1, h2⟩ := ih (c0 + s) d0 c d h
          have hcF : isCodCJS it = false := by
            cases hb : isCodCJS it
            · rfl
            · exact absurd hb hcod
          refine ⟨?_, ?_⟩
          · rw [h1, List.filter_cons, if_pos (by simp [hcF])]
            simp only [List.map_cons, List.sum_cons, hsub]
            ring
          · rw [h2, List.filter_cons, if_neg hcod]

/-- An item none of whose three price fields holds a finite number
(absent or non-finite). -/
def noUsablePrice (it : Item) : Prop :=
  numOf it.line_total_cents = .nan ∧ numOf it.unit_price_cents = .nan
    ∧ numOf it.price_cents = .nan

theorem resolveSubtotal_nan_of_noUsablePrice (it : Item)
    (h : noUsablePrice it) : resolveSubtotal it = .nan := by
  obtain ⟨h1, h2, h3⟩ := h
  simp [resolveSubtotal, h1, h2, h3, JSNum.isFinite]

/-- The split loop of `server.cjs` rejects the whole request with
`invalid_item` as soon as the list contains an item with no usable price
field, whatever the running totals. -/
theorem splitCents_error_of_noUsablePrice (items : List Item) (it : Item)
    (hmem : it ∈ items) (hbad : noUsablePrice it) :
    ∀ c d, splitCents items c d = .error invalidItemStr := by
  induction items with
  | nil => cases hmem
  | cons x rest ih =>
    intro c d
    rcases List.mem_cons.mp hmem with hx | hx
    · subst hx
      simp only [splitCents, resolveSubtotal_nan_of_noUsablePrice it hbad]
    · simp only [splitCents]
      cases hres : resolveSubtotal x with
      | nan => rfl
      | num s =>
        dsimp only
        by_cases hs : s < 0
        · rw [if_pos hs]
        · rw [if_neg hs]
          by_cases hcod : isCodCJS x = true
          · rw [if_pos hcod]
            exact ih hx c (d + s)
          · rw [if_neg hcod]
            exact ih hx (c + s) d

/-! ## Concrete test fixtures (used by witnesses and counterexamples) -/

def piTestIdStr : String := "pi_test"
def clientSecretStr : String := "cs_test"
def requiresPaymentStr : String := "requires_payment_method"
def cadStr : String := "cad"
def buyerEmailStr : String := "buyer@example.com"

/-- The trimmed form of the absent email, as `requireAuthOr403` computes
it. -/
def emptyTrimmed : String := emptyStr.trim

/-- The card item of the end-to-end example in spec section 8. -/
def witnessCardItem : Item :=
  { variant_id := some (.num 1), qty := some (.num 1),
    price_cents := some (.num 1000), unit_price_cents := none,
    line_total_cents := none, pay_method := some cardStr, title := none }

/-- The cod item of the end-to-end example in spec section 8. -/
def witnessCodItem : Item :=
  { variant_id := some (.num 2), qty := some (.num 2),
    price_cents := some (.num 500), unit_price_cents := none,
    line_total_cents := none, pay_method := some codStr, title := none }

def witnessItems : List Item := [witnessCardItem, witnessCodItem]

/-- An item with truthy variant and quantity but no price field at all. -/
def pricelessItem : Item :=
  { variant_id := some (.num 1), qty := some (.num 1), price_cents := none,
    unit_price_cents := none, line_total_cents := none,
    pay_method := some cardStr, title := none }

/-- A payment intent whose status is `succeeded`. -/
def succeededPI : PaymentIntent :=
  { id := piTestIdStr, status := succeededStr, amount := 500,
    amount_received := 500, currency := cadStr, metadata_orderId := none }

/-- A payment intent whose status is not `succeeded`. -/
def failedPI : PaymentIntent :=
  { id := piTestIdStr, status := requiresPaymentStr, amount := 1000,
    amount_received := 0, currency := cadStr, metadata_orderId := none }

/-- A gate-off configuration (neither flag set). -/
def gateOffCfg : Config :=
  { REQUIRE_LOGIN := false, REQUIRE_SPLIT_TAG := false }

/-- A configuration requiring the `split` customer tag. -/
def gateOnCfg : Config :=
  { REQUIRE_LOGIN := false, REQUIRE_SPLIT_TAG := true }

/-! ## Claim theorems -/

/-- C1: for every list of cart items accepted by the `/checkout/create`
splitter of `server.cjs`, the card total plus the cod total equals the
sum of all resolved item subtotals, the card total is exactly the sum
over the non-cod items and the cod total the sum over the cod items, and
the two branches partition the items; in the `src/server.js` variant the
same conservation holds for its two strict `pay_method` filters, given
that every item carries one of the two payment methods of the data
model. -/
theorem create_split_conservation (items : List Item) (card cod : ℚ)
    (hacc : splitCents items 0 0 = .ok (card, cod))
    (hpm : ∀ it ∈ items,
      it.pay_method = some cardStr ∨ it.pay_method = some codStr) :
    card + cod = ((items.map subQ).sum)
    ∧ card = (((items.filter (fun it => !(isCodCJS it))).map subQ).sum)
    ∧ cod = (((items.filter isCodCJS).map subQ).sum)
    ∧ (items.filter isCodCJS).length
        + (items.filter (fun it => !(isCodCJS it))).length = items.length
    ∧ (calcTotals (items.filter isCardStrict)).add
        (calcTotals (items.filter isCodStrict)) = calcTotals items := by
  obtain ⟨h1, h2⟩ := splitCents_ok items 0 0 card cod hacc
  rw [zero_add] at h1 h2
  refine ⟨?_, h1, h2, length_filter_partition items isCodCJS,
    calcTotals_filter_partition items hpm⟩
  have hsum := sum_map_filter_partition items subQ isCodCJS
  linarith

/-- Witness for C1 at the end-to-end example of spec section 8. -/
theorem create_split_conservation_witness :
    (1000 : ℚ) + 1000 = ((witnessItems.map subQ).sum)
    ∧ (1000 : ℚ)
        = (((witnessItems.filter (fun it => !(isCodCJS it))).map subQ).sum)
    ∧ (1000 : ℚ) = (((witnessItems.filter isCodCJS).map subQ).sum)
    ∧ (witnessItems.filter isCodCJS).length
        + (witnessItems.filter (fun it => !(isCodCJS it))).length
        = witnessItems.length
    ∧ (calcTotals (witnessItems.filter isCardStrict)).add
        (calcTotals (witnessItems.filter isCodStrict))
        = calcTotals witnessItems :=
  create_split_conservation witnessItems 1000 1000
    (by
      norm_num [splitCents, witnessItems, witnessCardItem, witnessCodItem,
        resolveSubtotal, numOf, jsOr, truthyF, JSNum.truthy,
        JSNum.isFinite, JSNum.mul, isCodCJS, payStr, codStr, cardStr]
      decide)
    (by decide)

/-- C2: a `/checkout/confirm` request carrying a payment id whose
retrieved status is not `succeeded` is answered with 400 and performs
zero order-creation calls, in both the `src/server.js` and the `part_001`
confirm handlers. -/
theorem confirm_unsucceeded_rejected_no_orders (pid : String)
    (retrieve : String → Except String PaymentIntent) (pi : PaymentIntent)
    (items : List Item)
    (hret : retrieve pid = .ok pi) (hst : pi.status ≠ succeededStr) :
    (confirmJS (some pid) retrieve items).status = 400
    ∧ (confirmJS (some pid) retrieve items).orderCalls = []
    ∧ (confirmP1 true (some pid) retrieve items).status = 400
    ∧ (confirmP1 true (some pid) retrieve items).orderCalls = [] := by
  simp [confirmJS, confirmP1, hret, hst]

/-- Witness for C2 at a concrete unsucceeded payment intent. -/
theorem confirm_unsucceeded_rejected_no_orders_witness :
    (confirmJS (some piTestIdStr) (fun _ => .ok failedPI)
        witnessItems).status = 400
    ∧ (confirmJS (some piTestIdStr) (fun _ => .ok failedPI)
        witnessItems).orderCalls = []
    ∧ (confirmP1 true (some piTestIdStr) (fun _ => .ok failedPI)
        witnessItems).status = 400
    ∧ (confirmP1 true (some piTestIdStr) (fun _ => .ok failedPI)
        witnessItems).orderCalls = [] :=
  confirm_unsucceeded_rejected_no_orders piTestIdStr _ failedPI
    witnessItems rfl (by decide)

/-- C3: the per-item subtotal of the `server.cjs` splitter equals the
ordered-fallback resolution the spec describes (explicit line total,
else unit price times quantity, else legacy unit price times quantity),
for every item. -/
theorem resolveSubtotal_eq_spec_fallback (it : Item) :
    resolveSubtotal it = specOrderedFallback it := by
  simp only [resolveSubtotal, specOrderedFallback]
  cases hL : numOf it.line_total_cents <;>
    cases hU : numOf it.unit_price_cents <;>
      cases hP : numOf it.price_cents <;>
        cases hQ : jsOr it.qty (.num 1) <;>
          simp [JSNum.isFinite, JSNum.mul]

/-- C4 counterexample: the `part_001` `/checkout/create` handler, given a
single item with a truthy variant and quantity but no usable price field
at all, answers 200 with both totals zero and no error: its `toInt`
silently coerces the missing price to zero instead of rejecting with
`invalid_item`. -/
theorem splitItems_silent_zero_counterexample :
    (createP1 true (piTestIdStr, clientSecretStr) [pricelessItem]).status
      = 200
    ∧ (createP1 true (piTestIdStr, clientSecretStr) [pricelessItem]).error
      = none
    ∧ (createP1 true (piTestIdStr, clientSecretStr) [pricelessItem]).amounts
      = some (.num 0, .num 0) := by
  have hne : ¬ (cardStr = codStr) := by decide
  have hbe : (cardStr == codStr) = false := by decide
  refine ⟨?_, ?_, ?_⟩ <;>
    norm_num [createP1, splitItems, keepItem, normalizeItem, sumCents,
      toInt, truthyF, JSNum.truthy, numOf, pricelessItem,
      hne, hbe, round_intCast, round_one]

/-- C4 (amended): in the `server.cjs` splitter an item with no usable
price field forces the `invalid_item` rejection of the whole request
with no Stripe call — never a silent zero subtotal; the `splitItems`
variants (`part_001`, `part_003`) instead coerce such a price to zero,
as the counterexample shows. -/
theorem cjs_rejects_unpriceable_item (cfg : Config)
    (customerEmail : Option String) (em : String)
    (lookup : Except Unit (List ShopCustomer)) (stub : String × String)
    (items : List Item) (it : Item)
    (hauth : requireAuthOr403 cfg customerEmail = .ok em)
    (hallow : isCustomerAllowed cfg em lookup = true)
    (hmem : it ∈ items) (hbad : noUsablePrice it) :
    splitCents items 0 0 = .error invalidItemStr
    ∧ (createCJS cfg customerEmail lookup stub items).status = 400
    ∧ (createCJS cfg customerEmail lookup stub items).error
        = some invalidItemStr
    ∧ (createCJS cfg customerEmail lookup stub items).stripeCalls = [] := by
  have hsplit := splitCents_error_of_noUsablePrice items it hmem hbad 0 0
  have hne : items.isEmpty = false := by
    cases items
    · cases hmem
    · simp
  refine ⟨hsplit, ?_, ?_, ?_⟩ <;>
    simp [createCJS, hauth, hallow, hne, hsplit]

/-- With the gate-off configuration the customer gate lets any email
through, whether or not its trimmed form is empty. -/
theorem gateOff_allows (email : String)
    (lookup : Except Unit (List ShopCustomer)) :
    isCustomerAllowed gateOffCfg email lookup = true := by
  by_cases h : email = "" <;> simp [isCustomerAllowed, h, gateOffCfg]

/-- Witness for C4 at a concrete unpriceable item. -/
theorem cjs_rejects_unpriceable_item_witness :
    splitCents [pricelessItem] 0 0 = .error invalidItemStr
    ∧ (createCJS gateOffCfg none (.ok []) (piTestIdStr, clientSecretStr)
        [pricelessItem]).status = 400
    ∧ (createCJS gateOffCfg none (.ok []) (piTestIdStr, clientSecretStr)
        [pricelessItem]).error = some invalidItemStr
    ∧ (createCJS gateOffCfg none (.ok []) (piTestIdStr, clientSecretStr)
        [pricelessItem]).stripeCalls = [] :=
  cjs_rejects_unpriceable_item gateOffCfg none emptyTrimmed (.ok [])
    (piTestIdStr, clientSecretStr) [pricelessItem] pricelessItem
    rfl (gateOff_allows emptyTrimmed (.ok [])) (by simp) ⟨rfl, rfl, rfl⟩

/-- C5 counterexample: the `server.cjs` `/checkout/confirm` handler,
given a succeeded payment intent and a cart consisting of a single cod
item, creates exactly one Shopify order whose financial status is
`paid`, not the `pending` status the claim requires for the cod
branch. -/
theorem confirm_cjs_cod_cart_counterexample :
    ((confirmCJS gateOffCfg (some piTestIdStr) none (.ok [])
        (fun _ => .ok succeededPI) [witnessCodItem]).orderCalls.map
          OrderPayload.financial_status) = [paidStr]
    ∧ paidStr ≠ pendingStr := by
  refine ⟨?_, by decide⟩
  have hallow :
      isCustomerAllowed { REQUIRE_LOGIN := false, REQUIRE_SPLIT_TAG := false }
        (emptyStr.trim) (.ok []) = true :=
    gateOff_allows (emptyStr.trim) (.ok [])
  simp [confirmCJS, requireAuthOr403, gateOffCfg, hallow, succeededPI,
    succeededStr]

/-- Items accepted by the `part_000` card filter are rejected by its cod
filter. -/
theorem isCardP0_not_cod (a : Item) (h : isCardP0 a = true) :
    ¬ (isCodP0 a = true) := by
  simp only [isCardP0, Bool.and_eq_true, beq_iff_eq] at h
  have hne : ((some cardStr : Option String) == some codStr) = false := by
    decide
  simp [isCodP0, h.1, hne]

/-- Items accepted by the `part_000` cod filter are rejected by its card
filter. -/
theorem isCodP0_not_card (a : Item) (h : isCodP0 a = true) :
    ¬ (isCardP0 a = true) := by
  simp only [isCodP0, Bool.and_eq_true, beq_iff_eq] at h
  have hne : ((some codStr : Option String) == some cardStr) = false := by
    decide
  simp [isCardP0, h.1, hne]

/-- `splitItems` normalisation sends every non-cod `pay_method` to
`card`. -/
theorem normalizeItem_pay_card (a : Item)
    (h : a.pay_method ≠ some codStr) :
    (normalizeItem a).pay_method = cardStr := by
  simp [normalizeItem, h]

/-- `splitItems` normalisation keeps an exact-cod `pay_method`. -/
theorem normalizeItem_pay_cod (a : Item)
    (h : a.pay_method = some codStr) :
    (normalizeItem a).pay_method = codStr := by
  simp [normalizeItem, h]

/-- When every item is kept and none is marked cod, the `splitItems`
card branch is the whole normalised cart and the cod branch is empty. -/
theorem splitItems_all_card (items : List Item)
    (hall : ∀ it ∈ items,
      keepItem it = true ∧ it.pay_method ≠ some codStr) :
    (splitItems items).card = items.map normalizeItem
    ∧ (splitItems items).cod = [] := by
  have hkeep : items.filter keepItem = items :=
    List.filter_eq_self.mpr (fun a ha => (hall a ha).1)
  have hbe : ∀ n ∈ (items.filter keepItem).map normalizeItem,
      (n.pay_method == codStr) = false := by
    intro n hn
    rcases List.mem_map.mp hn with ⟨a, haf, rfl⟩
    rw [normalizeItem_pay_card a (hall a (List.mem_filter.mp haf).1).2]
    decide
  constructor
  · show ((items.filter keepItem).map normalizeItem).filter
        (fun it => !(it.pay_method == codStr)) = items.map normalizeItem
    rw [List.filter_eq_self.mpr (fun n hn => by rw [hbe n hn]; rfl), hkeep]
  · show ((items.filter keepItem).map normalizeItem).filter
        (fun it => it.pay_method == codStr) = []
    exact List.filter_eq_nil_iff.mpr
      (fun n hn => by rw [hbe n hn]; decide)

/-- When every item is kept and all are marked cod, the `splitItems` cod
branch is the whole normalised cart and the card branch is empty. -/
theorem splitItems_all_cod (items : List Item)
    (hall : ∀ it ∈ items,
      keepItem it = true ∧ it.pay_method = some codStr) :
    (splitItems items).card = []
    ∧ (splitItems items).cod = items.map normalizeItem := by
  have hkeep : items.filter keepItem = items :=
    List.filter_eq_self.mpr (fun a ha => (hall a ha).1)
  have hbe : ∀ n ∈ (items.filter keepItem).map normalizeItem,
      (n.pay_method == codStr) = true := by
    intro n hn
    rcases List.mem_map.mp hn with ⟨a, haf, rfl⟩
    rw [normalizeItem_pay_cod a (hall a (List.mem_filter.mp haf).1).2]
    decide
  constructor
  · show ((items.filter keepItem).map normalizeItem).filter
        (fun it => !(it.pay_method == codStr)) = []
    exact List.filter_eq_nil_iff.mpr
      (fun n hn => by rw [hbe n hn]; decide)
  · show ((items.filter keepItem).map normalizeItem).filter
        (fun it => it.pay_method == codStr) = items.map normalizeItem
    rw [List.filter_eq_self.mpr (fun n hn => hbe n hn), hkeep]

/-- C5 (amended): in the branch-splitting confirm handlers
(`src/server.js`, `part_000`, `part_001`), with a succeeded
authorization a cart whose items all belong to one branch yields exactly
one order of the corresponding financial status (`paid` for card,
`pending` for cod), and an empty branch yields no order call of its
status; the `server.cjs` confirm instead always creates a single `paid`
order over all items, as the counterexample shows.  (`part_000` performs
no status check at all, so its conjuncts need no retrieval hypothesis;
`part_001` reaches its order-creating tail under the same retrieval
hypotheses as `src/server.js`.) -/
theorem confirmJS_branch_orders (pid : String)
    (retrieve : String → Except String PaymentIntent) (pi : PaymentIntent)
    (items : List Item)
    (hret : retrieve pid = .ok pi) (hst : pi.status = succeededStr) :
    ((∀ it ∈ items, it.pay_method = some cardStr) → items ≠ [] →
      (confirmJS (some pid) retrieve items).orderCalls
        = [{ financial_status := paidStr,
             line_items := toLineItemsJS items }])
    ∧ ((∀ it ∈ items, it.pay_method = some codStr) → items ≠ [] →
      (confirmJS (some pid) retrieve items).orderCalls
        = [{ financial_status := pendingStr,
             line_items := toLineItemsJS items }])
    ∧ (items.filter isCardStrict = [] →
      ∀ o ∈ (confirmJS (some pid) retrieve items).orderCalls,
        o.financial_status ≠ paidStr)
    ∧ (items.filter isCodStrict = [] →
      ∀ o ∈ (confirmJS (some pid) retrieve items).orderCalls,
        o.financial_status ≠ pendingStr)
    ∧ ((∀ it ∈ items, isCardP0 it = true) → items ≠ [] →
      (confirmP0 items).orderCalls
        = [{ financial_status := paidStr,
             line_items := toLineItemsP0 items }])
    ∧ ((∀ it ∈ items, isCodP0 it = true) → items ≠ [] →
      (confirmP0 items).orderCalls
        = [{ financial_status := pendingStr,
             line_items := toLineItemsP0 items }])
    ∧ (items.filter isCardP0 = [] →
      ∀ o ∈ (confirmP0 items).orderCalls,
        o.financial_status ≠ paidStr)
    ∧ (items.filter isCodP0 = [] →
      ∀ o ∈ (confirmP0 items).orderCalls,
        o.financial_status ≠ pendingStr)
    ∧ ((∀ it ∈ items, keepItem it = true ∧ it.pay_method ≠ some codStr) →
      items ≠ [] →
      (confirmP1 true (some pid) retrieve items).orderCalls
        = [{ financial_status := paidStr,
             line_items := (splitItems items).card.map toShopifyLine }])
    ∧ ((∀ it ∈ items, keepItem it = true ∧ it.pay_method = some codStr) →
      items ≠ [] →
      (confirmP1 true (some pid) retrieve items).orderCalls
        = [{ financial_status := pendingStr,
             line_items := (splitItems items).cod.map toShopifyLine }])
    ∧ ((splitItems items).card = [] →
      ∀ o ∈ (confirmP1 true (some pid) retrieve items).orderCalls,
        o.financial_status ≠ paidStr)
    ∧ ((splitItems items).cod = [] →
      ∀ o ∈ (confirmP1 true (some pid) retrieve items).orderCalls,
        o.financial_status ≠ pendingStr) := by
  have hc : confirmJS (some pid) retrieve items
      = confirmOrdersJS items [pid] := by
    simp [confirmJS, hret, hst]
  have hp1 : confirmP1 true (some pid) retrieve items
      = confirmOrdersP1 items [pid] := by
    simp [confirmP1, hret, hst]
  rw [hc, hp1]
  refine ⟨?_, ?_, ?_, ?_, ?_, ?_, ?_, ?_, ?_, ?_, ?_, ?_⟩
  · intro hall hne
    have hemp : items.isEmpty = false := by
      cases items
      · exact absurd rfl hne
      · rfl
    have hcard : items.filter isCardStrict = items :=
      List.filter_eq_self.mpr (fun a ha => by
        simp [isCardStrict, hall a ha])
    have hcod : items.filter isCodStrict = [] :=
      List.filter_eq_nil_iff.mpr (fun a ha => by
        simp only [isCodStrict, hall a ha]
        decide)
    simp [confirmOrdersJS, hcard, hcod, hemp]
  · intro hall hne
    have hemp : items.isEmpty = false := by
      cases items
      · exact absurd rfl hne
      · rfl
    have hcard : items.filter isCardStrict = [] :=
      List.filter_eq_nil_iff.mpr (fun a ha => by
        simp only [isCardStrict, hall a ha]
        decide)
    have hcod : items.filter isCodStrict = items :=
      List.filter_eq_self.mpr (fun a ha => by
        simp [isCodStrict, hall a ha])
    simp [confirmOrdersJS, hcard, hcod, hemp]
  · intro hcard o ho
    simp only [confirmOrdersJS, hcard, List.isEmpty_nil, ite_true,
      List.nil_append] at ho
    by_cases hcod : (items.filter isCodStrict).isEmpty = true
    · rw [if_pos hcod] at ho
      cases ho
    · rw [if_neg hcod] at ho
      rcases List.mem_singleton.mp ho with rfl
      exact (by decide : pendingStr ≠ paidStr)
  · intro hcod o ho
    simp only [confirmOrdersJS, hcod, List.isEmpty_nil, ite_true,
      List.append_nil] at ho
    by_cases hcard : (items.filter isCardStrict).isEmpty = true
    · rw [if_pos hcard] at ho
      cases ho
    · rw [if_neg hcard] at ho
      rcases List.mem_singleton.mp ho with rfl
      exact (by decide : paidStr ≠ pendingStr)
  · intro hall hne
    have hemp : items.isEmpty = false := by
      cases items
      · exact absurd rfl hne
      · rfl
    have hcard : items.filter isCardP0 = items :=
      List.filter_eq_self.mpr (fun a ha => hall a ha)
    have hcod : items.filter isCodP0 = [] :=
      List.filter_eq_nil_iff.mpr
        (fun a ha => isCardP0_not_cod a (hall a ha))
    simp [confirmP0, hcard, hcod, hemp]
  · intro hall hne
    have hemp : items.isEmpty = false := by
      cases items
      · exact absurd rfl hne
      · rfl
    have hcard : items.filter isCardP0 = [] :=
      List.filter_eq_nil_iff.mpr
        (fun a ha => isCodP0_not_card a (hall a ha))
    have hcod : items.filter isCodP0 = items :=
      List.filter_eq_self.mpr (fun a ha => hall a ha)
    simp [confirmP0, hcard, hcod, hemp]
  · intro hcard o ho
    simp only [confirmP0, hcard, List.isEmpty_nil, ite_true,
      List.nil_append] at ho
    by_cases hcod : (items.filter isCodP0).isEmpty = true
    · rw [if_pos hcod] at ho
      cases ho
    · rw [if_neg hcod] at ho
      rcases List.mem_singleton.mp ho with rfl
      exact (by decide : pendingStr ≠ paidStr)
  · intro hcod o ho
    simp only [confirmP0, hcod, List.isEmpty_nil, ite_true,
      List.append_nil] at ho
    by_cases hcard : (items.filter isCardP0).isEmpty = true
    · rw [if_pos hcard] at ho
      cases ho
    · rw [if_neg hcard] at ho
      rcases List.mem_singleton.mp ho with rfl
      exact (by decide : paidStr ≠ pendingStr)
  · intro hall hne
    obtain ⟨hcardA, hcodA⟩ := splitItems_all_card items hall
    have hnorm : items.map normalizeItem ≠ [] := by
      cases items
      · exact absurd rfl hne
      · simp
    have hcef : (splitItems items).card.isEmpty = false := by
      rw [hcardA]
      cases hm : items.map normalizeItem
      · exact absurd hm hnorm
      · rfl
    simp [confirmOrdersP1, hcodA, hcef]
  · intro hall hne
    obtain ⟨hcardA, hcodA⟩ := splitItems_all_cod items hall
    have hnorm : items.map normalizeItem ≠ [] := by
      cases items
      · exact absurd rfl hne
      · simp
    have hcef : (splitItems items).cod.isEmpty = false := by
      rw [hcodA]
      cases hm : items.map normalizeItem
      · exact absurd hm hnorm
      · rfl
    simp [confirmOrdersP1, hcardA, hcef]
  · intro hcard o ho
    simp only [confirmOrdersP1, hcard, List.isEmpty_nil, ite_true,
      List.nil_append] at ho
    by_cases hcod : (splitItems items).cod.isEmpty = true
    · rw [if_pos hcod] at ho
      cases ho
    · rw [if_neg hcod] at ho
      rcases List.mem_singleton.mp ho with rfl
      exact (by decide : pendingStr ≠ paidStr)
  · intro hcod o ho
    simp only [confirmOrdersP1, hcod, List.isEmpty_nil, ite_true,
      List.append_nil] at ho
    by_cases hcard : (splitItems items).card.isEmpty = true
    · rw [if_pos hcard] at ho
      cases ho
    · rw [if_neg hcard] at ho
      rcases List.mem_singleton.mp ho with rfl
      exact (by decide : paidStr ≠ pendingStr)

/-- Witness for C5 (amended) at a concrete all-cod cart. -/
theorem confirmJS_branch_orders_witness :
    ((∀ it ∈ [witnessCodItem], it.pay_method = some cardStr) →
      [witnessCodItem] ≠ [] →
      (confirmJS (some piTestIdStr) (fun _ => .ok succeededPI)
          [witnessCodItem]).orderCalls
        = [{ financial_status := paidStr,
             line_items := toLineItemsJS [witnessCodItem] }])
    ∧ ((∀ it ∈ [witnessCodItem], it.pay_method = some codStr) →
      [witnessCodItem] ≠ [] →
      (confirmJS (some piTestIdStr) (fun _ => .ok succeededPI)
          [witnessCodItem]).orderCalls
        = [{ financial_status := pendingStr,
             line_items := toLineItemsJS [witnessCodItem] }])
    ∧ ([witnessCodItem].filter isCardStrict = [] →
      ∀ o ∈ (confirmJS (some piTestIdStr) (fun _ => .ok succeededPI)
          [witnessCodItem]).orderCalls,
        o.financial_status ≠ paidStr)
    ∧ ([witnessCodItem].filter isCodStrict = [] →
      ∀ o ∈ (confirmJS (some piTestIdStr) (fun _ => .ok succeededPI)
          [witnessCodItem]).orderCalls,
        o.financial_status ≠ pendingStr)
    ∧ ((∀ it ∈ [witnessCodItem], isCardP0 it = true) →
      [witnessCodItem] ≠ [] →
      (confirmP0 [witnessCodItem]).orderCalls
        = [{ financial_status := paidStr,
             line_items := toLineItemsP0 [witnessCodItem] }])
    ∧ ((∀ it ∈ [witnessCodItem], isCodP0 it = true) →
      [witnessCodItem] ≠ [] →
      (confirmP0 [witnessCodItem]).orderCalls
        = [{ financial_status := pendingStr,
             line_items := toLineItemsP0 [witnessCodItem] }])
    ∧ ([witnessCodItem].filter isCardP0 = [] →
      ∀ o ∈ (confirmP0 [witnessCodItem]).orderCalls,
        o.financial_status ≠ paidStr)
    ∧ ([witnessCodItem].filter isCodP0 = [] →
      ∀ o ∈ (confirmP0 [witnessCodItem]).orderCalls,
        o.financial_status ≠ pendingStr)
    ∧ ((∀ it ∈ [witnessCodItem],
        keepItem it = true ∧ it.pay_method ≠ some codStr) →
      [witnessCodItem] ≠ [] →
      (confirmP1 true (some piTestIdStr) (fun _ => .ok succeededPI)
          [witnessCodItem]).orderCalls
        = [{ financial_status := paidStr,
             line_items :=
               (splitItems [witnessCodItem]).card.map toShopifyLine }])
    ∧ ((∀ it ∈ [witnessCodItem],
        keepItem it = true ∧ it.pay_method = some codStr) →
      [witnessCodItem] ≠ [] →
      (confirmP1 true (some piTestIdStr) (fun _ => .ok succeededPI)
          [witnessCodItem]).orderCalls
        = [{ financial_status := pendingStr,
             line_items :=
               (splitItems [witnessCodItem]).cod.map toShopifyLine }])
    ∧ ((splitItems [witnessCodItem]).card = [] →
      ∀ o ∈ (confirmP1 true (some piTestIdStr)
          (fun _ => .ok succeededPI) [witnessCodItem]).orderCalls,
        o.financial_status ≠ paidStr)
    ∧ ((splitItems [witnessCodItem]).cod = [] →
      ∀ o ∈ (confirmP1 true (some piTestIdStr)
          (fun _ => .ok succeededPI) [witnessCodItem]).orderCalls,
        o.financial_status ≠ pendingStr) :=
  confirmJS_branch_orders piTestIdStr _ succeededPI [witnessCodItem]
    rfl rfl

/-- C6: a `/checkout/create` request whose resolved pay-now total is
zero makes no Stripe payment-authorization call and is answered with a
null payment-intent id and null client secret together with both branch
totals, in all three variants (`server.cjs`, `part_001`,
`src/server.js`). -/
theorem zero_card_total_skips_processor (cfg : Config)
    (customerEmail : Option String) (em : String)
    (lookup : Except Unit (List ShopCustomer)) (stub : String × String)
    (items itemsP1 itemsJS : List Item) (cod : ℚ) (k : Bool)
    (hauth : requireAuthOr403 cfg customerEmail = .ok em)
    (hallow : isCustomerAllowed cfg em lookup = true)
    (hne : items.isEmpty = false)
    (hsplit : splitCents items 0 0 = .ok (0, cod))
    (hp1 : sumCents (splitItems itemsP1).card = 0)
    (hjs : calcTotals (itemsJS.filter isCardStrict) = .num 0)
    (hneJS : itemsJS.isEmpty = false) :
    ((createCJS cfg customerEmail lookup stub items).stripeCalls = []
      ∧ (createCJS cfg customerEmail lookup stub items).payment_intent_id
          = none
      ∧ (createCJS cfg customerEmail lookup stub items).client_secret = none
      ∧ (createCJS cfg customerEmail lookup stub items).amounts
          = some (.num 0, .num cod))
    ∧ ((createP1 k stub itemsP1).stripeCalls = []
      ∧ (createP1 k stub itemsP1).payment_intent_id = none
      ∧ (createP1 k stub itemsP1).client_secret = none
      ∧ (createP1 k stub itemsP1).amounts
          = some (.num 0,
              .num ((sumCents (splitItems itemsP1).cod : ℤ) : ℚ)))
    ∧ ((createJS stub itemsJS).stripeCalls = []
      ∧ (createJS stub itemsJS).payment_intent_id = none
      ∧ (createJS stub itemsJS).client_secret = none
      ∧ (createJS stub itemsJS).amounts
          = some (.num 0, calcTotals (itemsJS.filter isCodStrict))) := by
  refine ⟨?_, ?_, ?_⟩
  · refine ⟨?_, ?_, ?_, ?_⟩ <;>
      simp [createCJS, hauth, hallow, hne, hsplit]
  · refine ⟨?_, ?_, ?_, ?_⟩ <;>
      simp [createP1, hp1]
  · refine ⟨?_, ?_, ?_, ?_⟩ <;>
      simp [createJS, hneJS, hjs, JSNum.gtZero]

/-- Witness for C6 at a concrete all-cod cart. -/
theorem zero_card_total_skips_processor_witness :
    ((createCJS gateOffCfg none (.ok []) (piTestIdStr, clientSecretStr)
        [witnessCodItem]).stripeCalls = []
      ∧ (createCJS gateOffCfg none (.ok []) (piTestIdStr, clientSecretStr)
          [witnessCodItem]).payment_intent_id = none
      ∧ (createCJS gateOffCfg none (.ok []) (piTestIdStr, clientSecretStr)
          [witnessCodItem]).client_secret = none
      ∧ (createCJS gateOffCfg none (.ok []) (piTestIdStr, clientSecretStr)
          [witnessCodItem]).amounts = some (.num 0, .num 1000))
    ∧ ((createP1 true (piTestIdStr, clientSecretStr)
          [witnessCodItem]).stripeCalls = []
      ∧ (createP1 true (piTestIdStr, clientSecretStr)
          [witnessCodItem]).payment_intent_id = none
      ∧ (createP1 true (piTestIdStr, clientSecretStr)
          [witnessCodItem]).client_secret = none
      ∧ (createP1 true (piTestIdStr, clientSecretStr)
          [witnessCodItem]).amounts
          = some (.num 0,
              .num ((sumCents (splitItems [witnessCodItem]).cod : ℤ) : ℚ)))
    ∧ ((createJS (piTestIdStr, clientSecretStr)
          [witnessCodItem]).stripeCalls = []
      ∧ (createJS (piTestIdStr, clientSecretStr)
          [witnessCodItem]).payment_intent_id = none
      ∧ (createJS (piTestIdStr, clientSecretStr)
          [witnessCodItem]).client_secret = none
      ∧ (createJS (piTestIdStr, clientSecretStr)
          [witnessCodItem]).amounts
          = some (.num 0,
              calcTotals ([witnessCodItem].filter isCodStrict))) :=
  zero_card_total_skips_processor gateOffCfg none emptyTrimmed (.ok [])
    (piTestIdStr, clientSecretStr) [witnessCodItem] [witnessCodItem]
    [witnessCodItem] 1000 true rfl (gateOff_allows emptyTrimmed (.ok []))
    rfl
    (by
      norm_num [splitCents, witnessCodItem, resolveSubtotal, numOf, jsOr,
        truthyF, JSNum.truthy, JSNum.isFinite, JSNum.mul, isCodCJS,
        payStr, codStr])
    (by decide) (by decide) rfl

/-- C7: a webhook notification whose signature fails verification is
answered with 400 and the order-update path runs zero times, whatever
the credential configuration and the rejection message. -/
theorem webhook_bad_signature_rejected (hasShopifyCreds : Bool)
    (msg : String) :
    stripeWebhook hasShopifyCreds (.error msg)
      = { status := 400, orderUpdateCalls := [] } := rfl

/-- C8: with the split-tag gate enabled, a customer-lookup error or a
missing `split` marker makes `isCustomerAllowed` deny, and the three
gated `server.cjs` handlers (create, confirm, cod) answer 403 having
made zero Stripe calls and zero Shopify order calls. -/
theorem customer_gate_fails_closed (cfg : Config)
    (customerEmail : Option String) (em : String)
    (lookup : Except Unit (List ShopCustomer)) (stub : String × String)
    (items : List Item) (pid : String)
    (retrieve : String → Except String PaymentIntent)
    (hRST : cfg.REQUIRE_SPLIT_TAG = true)
    (hauth : requireAuthOr403 cfg customerEmail = .ok em)
    (hdeny : lookup = .error ()
      ∨ ∃ cs, lookup = .ok cs ∧ markerFound em cs = false) :
    isCustomerAllowed cfg em lookup = false
    ∧ (createCJS cfg customerEmail lookup stub items).status = 403
    ∧ (createCJS cfg customerEmail lookup stub items).error
        = some notAuthorizedStr
    ∧ (createCJS cfg customerEmail lookup stub items).stripeCalls = []
    ∧ (confirmCJS cfg (some pid) customerEmail lookup retrieve items).status
        = 403
    ∧ (confirmCJS cfg (some pid) customerEmail lookup retrieve
        items).retrieveCalls = []
    ∧ (confirmCJS cfg (some pid) customerEmail lookup retrieve
        items).orderCalls = []
    ∧ (codCJS cfg customerEmail lookup items).status = 403
    ∧ (codCJS cfg customerEmail lookup items).orderCalls = [] := by
  have hna : isCustomerAllowed cfg em lookup = false := by
    by_cases hem : em = ""
    · simp [isCustomerAllowed, hem, hRST]
    · rcases hdeny with hd | ⟨cs, hcs, hmf⟩
      · simp [isCustomerAllowed, hem, hRST, hd]
      · simp [isCustomerAllowed, hem, hRST, hcs, hmf]
  refine ⟨hna, ?_, ?_, ?_, ?_, ?_, ?_, ?_, ?_⟩ <;>
    simp [createCJS, confirmCJS, codCJS, hauth, hna]

/-- Witness for C8 at a concrete failing lookup. -/
theorem customer_gate_fails_closed_witness :
    isCustomerAllowed gateOnCfg emptyTrimmed (.error ()) = false
    ∧ (createCJS gateOnCfg none (.error ())
        (piTestIdStr, clientSecretStr) witnessItems).status = 403
    ∧ (createCJS gateOnCfg none (.error ())
        (piTestIdStr, clientSecretStr) witnessItems).error
        = some notAuthorizedStr
    ∧ (createCJS gateOnCfg none (.error ())
        (piTestIdStr, clientSecretStr) witnessItems).stripeCalls = []
    ∧ (confirmCJS gateOnCfg (some piTestIdStr) none (.error ())
        (fun _ => .ok succeededPI) witnessItems).status = 403
    ∧ (confirmCJS gateOnCfg (some piTestIdStr) none (.error ())
        (fun _ => .ok succeededPI) witnessItems).retrieveCalls = []
    ∧ (confirmCJS gateOnCfg (some piTestIdStr) none (.error ())
        (fun _ => .ok succeededPI) witnessItems).orderCalls = []
    ∧ (codCJS gateOnCfg none (.error ()) witnessItems).status = 403
    ∧ (codCJS gateOnCfg none (.error ()) witnessItems).orderCalls = [] :=
  customer_gate_fails_closed gateOnCfg none emptyTrimmed (.error ())
    (piTestIdStr, clientSecretStr) witnessItems piTestIdStr
    (fun _ => .ok succeededPI) rfl rfl (Or.inl rfl)

/-- C9: an item whose `pay_method` is not exactly the string `"cod"` is
routed to the pay-now branch: the `server.cjs` loop adds its subtotal to
the card accumulator, and `splitItems` normalises its `pay_method` to
`"card"` and places it in the card partition; the two partitions exhaust
the kept items, so no third branch exists. -/
theorem non_cod_items_route_to_card (it : Item) (rest : List Item)
    (card cod s : ℚ) (items : List Item) (it2 : Item)
    (hres : resolveSubtotal it = .num s) (hnn : ¬ s < 0)
    (hpm : payStr it.pay_method ≠ codStr)
    (hmem : it2 ∈ items) (hkeep : keepItem it2 = true)
    (hpm2 : it2.pay_method ≠ some codStr) :
    splitCents (it :: rest) card cod = splitCents rest (card + s) cod
    ∧ (normalizeItem it2).pay_method = cardStr
    ∧ normalizeItem it2 ∈ (splitItems items).card
    ∧ (splitItems items).card.length + (splitItems items).cod.length
        = (splitItems items).all.length := by
  have hcodF : ¬ (isCodCJS it = true) := by
    simp [isCodCJS, hpm]
  have hnorm : (normalizeItem it2).pay_method = cardStr := by
    simp [normalizeItem, hpm2]
  refine ⟨?_, hnorm, ?_, ?_⟩
  · simp only [splitCents, hres]
    rw [if_neg hnn, if_neg hcodF]
  · have h1 : it2 ∈ items.filter keepItem :=
      List.mem_filter.mpr ⟨hmem, hkeep⟩
    have h2 : normalizeItem it2
        ∈ (items.filter keepItem).map normalizeItem :=
      List.mem_map_of_mem normalizeItem h1
    refine List.mem_filter.mpr ⟨h2, ?_⟩
    simp only [hnorm]
    decide
  · have hp := length_filter_partition
      ((items.filter keepItem).map normalizeItem)
      (fun n => n.pay_method == codStr)
    simp only [splitItems]
    omega

/-- Witness for C9 at a concrete card item. -/
theorem non_cod_items_route_to_card_witness :
    splitCents (witnessCardItem :: []) 0 0 = splitCents [] (0 + 1000) 0
    ∧ (normalizeItem witnessCardItem).pay_method = cardStr
    ∧ normalizeItem witnessCardItem ∈ (splitItems witnessItems).card
    ∧ (splitItems witnessItems).card.length
        + (splitItems witnessItems).cod.length
        = (splitItems witnessItems).all.length :=
  non_cod_items_route_to_card witnessCardItem [] 0 0 1000 witnessItems
    witnessCardItem
    (by
      norm_num [resolveSubtotal, numOf, jsOr, truthyF, JSNum.truthy,
        JSNum.isFinite, JSNum.mul, witnessCardItem])
    (by norm_num) (by decide) (by decide) (by decide) (by decide)

/-- C10: an item lacking a truthy variant identifier or a truthy
quantity is silently removed by `splitItems` before partitioning: the
whole split result is unchanged by its presence, both branch totals are
unchanged, and the `part_001` create handler answers identically (no
error, no rejection). -/
theorem falsy_items_silently_dropped (pre post : List Item) (it : Item)
    (k : Bool) (stub : String × String) (hdrop : keepItem it = false) :
    splitItems (pre ++ it :: post) = splitItems (pre ++ post)
    ∧ sumCents (splitItems (pre ++ it :: post)).card
        = sumCents (splitItems (pre ++ post)).card
    ∧ sumCents (splitItems (pre ++ it :: post)).cod
        = sumCents (splitItems (pre ++ post)).cod
    ∧ createP1 k stub (pre ++ it :: post) = createP1 k stub (pre ++ post)
    := by
  have hfil : (pre ++ it :: post).filter keepItem
      = (pre ++ post).filter keepItem := by
    simp [List.filter_append, List.filter_cons, hdrop]
  have hsp : splitItems (pre ++ it :: post) = splitItems (pre ++ post) := by
    simp only [splitItems, hfil]
  exact ⟨hsp, by rw [hsp], by rw [hsp], by simp only [createP1, hsp]⟩

/-- An item without a variant id (falsy variant), as dropped by
`splitItems`. -/
def noVariantItem : Item :=
  { variant_id := none, qty := some (.num 1),
    price_cents := some (.num 700), unit_price_cents := none,
    line_total_cents := none, pay_method := some codStr, title := none }

/-- Witness for C10 at a concrete item lacking a variant id. -/
theorem falsy_items_silently_dropped_witness :
    splitItems ([witnessCardItem] ++ noVariantItem :: [])
      = splitItems ([witnessCardItem] ++ [])
    ∧ sumCents (splitItems ([witnessCardItem] ++ noVariantItem :: [])).card
        = sumCents (splitItems ([witnessCardItem] ++ [])).card
    ∧ sumCents (splitItems ([witnessCardItem] ++ noVariantItem :: [])).cod
        = sumCents (splitItems ([witnessCardItem] ++ [])).cod
    ∧ createP1 true (piTestIdStr, clientSecretStr)
          ([witnessCardItem] ++ noVariantItem :: [])
        = createP1 true (piTestIdStr, clientSecretStr)
          ([witnessCardItem] ++ []) :=
  falsy_items_silently_dropped [witnessCardItem] [] noVariantItem true
    (piTestIdStr, clientSecretStr) (by decide)

end SplitPayment
